import Mathlib

/-!
# Verification of the halotools documentation repository

The repository consists of two documentation files holding three tutorial
notebooks and one reStructuredText index page:

* `docs/notebooks/subhalo_modeling/subhalo_modeling_tutorial1.ipynb`:
  a notebook building a subhalo-based model (plus, concatenated after it,
  the rst index page for the halo-catalog-analysis tutorial);
* `docs/notebooks/halocat_analysis/halo_catalog_analysis_tutorial1.ipynb`:
  a notebook analyzing a halo catalog (plus, concatenated after it, the
  "Example 3" HOD-model notebook defining the `Size` component class).

This file embeds, shallowly:

* the Python name-scoping structure of every code cell of the three
  notebooks (which names each cell binds, references or deletes);
* the two computations the notebooks define themselves:
  the aggregation function `count_subhalos` and the `Size` component class
  with its `assign_size` method;
* the document inventory (notebook pages and the single rst index page with
  its toctree);
* the modules imported by the notebooks;
* the behavior of the external library's `SubhaloModelFactory` /
  `populate_mock` machinery, modelled from the spec and from the
  input/output recorded in the notebooks (the library's own source is not
  part of this repository).
-/

/- ## Python name-scoping model of the notebook cells

Each code cell is flattened to the sequence of top-level scope events it
performs, in textual order: `bind n` for an assignment, `def`, `class` or
an import binding the global name `n`; `use n` for a reference to the global
name `n` appearing in the cell's code; `del n` for a `del` statement.
Local variables and function parameters are not global names and do not
appear. -/

inductive PyEvent where
  | bind : String → PyEvent
  | use : String → PyEvent
  | del : String → PyEvent
  deriving DecidableEq, Repr

abbrev PyCell := List PyEvent

/-- Python builtins referenced by the notebooks: these are in scope in every
fresh interpreter session without any import. -/
def pythonBuiltins : List String := ["print", "len", "object"]

/-- One scope event acting on the pair (bound global names, undefined-name
errors accumulated so far). A `use` or `del` of a name that is neither bound
nor a builtin records that name as an undefined-name error. -/
def stepScope : List String × List String → PyEvent → List String × List String
  | (scope, errs), .bind n => (n :: scope, errs)
  | (scope, errs), .use n =>
      (scope, if scope.contains n || pythonBuiltins.contains n then errs else errs ++ [n])
  | (scope, errs), .del n =>
      (scope.erase n, if scope.contains n then errs else errs ++ [n])

/-- Running a notebook's code cells in order from an empty global scope:
the list of names referenced before being defined or imported. -/
def notebookScopeErrors (cells : List PyCell) : List String :=
  (cells.flatten.foldl stepScope ([], [])).2

/-- A notebook is self-contained when executing its cells in order never
references an undefined name. -/
def selfContained (cells : List PyCell) : Prop := notebookScopeErrors cells = []

instance (cells : List PyCell) : Decidable (selfContained cells) := by
  unfold selfContained; infer_instance

/- ### Cell transcription: subhalo_modeling_tutorial1 notebook -/

/-- Code cells of `subhalo_modeling_tutorial1.ipynb` (first document of the
file), in order:
1. imports of `SubhaloModelFactory` and `Behroozi10SmHm`; `sm_model` and
   `model_instance` assignments;
2. `model_instance.populate_mock(simname = 'fake')`;
3. `model_instance.populate_mock(simname = 'bolshoi')` (raises);
4. `del model_instance` then rebuild it from `sm_model`;
5.-7. three `populate_mock(simname = 'bolshoi')` calls (one under %timeit);
8. `print(model_instance.mock.galaxy_table[0:5])`;
9. rebuild `sm_model` and `model_instance` with keyword `mstar`;
10. `model_instance.populate_mock(simname = 'fake')`;
11. `print(model_instance.mock.galaxy_table[0:5])`;
12. empty trailing cell. -/
def subhaloNotebookCells : List PyCell :=
  [ [ .bind "SubhaloModelFactory", .bind "Behroozi10SmHm",
      .use "Behroozi10SmHm", .bind "sm_model",
      .use "SubhaloModelFactory", .use "sm_model", .bind "model_instance" ],
    [ .use "model_instance" ],
    [ .use "model_instance" ],
    [ .del "model_instance",
      .use "SubhaloModelFactory", .use "sm_model", .bind "model_instance" ],
    [ .use "model_instance" ],
    [ .use "model_instance" ],
    [ .use "model_instance" ],
    [ .use "print", .use "model_instance" ],
    [ .use "Behroozi10SmHm", .bind "sm_model",
      .use "SubhaloModelFactory", .use "sm_model", .bind "model_instance" ],
    [ .use "model_instance" ],
    [ .use "print", .use "model_instance" ],
    [] ]

/- ### Cell transcription: halo_catalog_analysis_tutorial1 notebook -/

/-- Code cells of `halo_catalog_analysis_tutorial1.ipynb` (first document of
the file), in order:
1. import `CachedHaloCatalog`; build `halocat`; print its `halo_table`;
2. `mask` and `halos` assignments from `halocat`;
3. import `add_new_table_column`; bind `grouping_key`, `new_colname`,
   `new_coltype`; define `count_subhalos` (whose body references the
   builtin `len`); bind `aggregation_function` and
   `colnames_needed_by_function`; call `add_new_table_column`;
4. import `mean_y_vs_x` and `numpy as np`; bind `hostmask`, `hosts`,
   `bins`, `result` and unpack it into three names;
5. `from seaborn import plt`;
6. plotting calls on `plt` using the three unpacked names;
7. empty trailing cell. -/
def halocatNotebookCells : List PyCell :=
  [ [ .bind "CachedHaloCatalog", .use "CachedHaloCatalog", .bind "halocat",
      .use "print", .use "halocat" ],
    [ .use "halocat", .use "halocat", .bind "mask",
      .use "halocat", .use "mask", .bind "halos" ],
    [ .bind "add_new_table_column",
      .bind "grouping_key", .bind "new_colname", .bind "new_coltype",
      .use "len", .bind "count_subhalos",
      .use "count_subhalos", .bind "aggregation_function",
      .bind "colnames_needed_by_function",
      .use "add_new_table_column", .use "halos",
      .use "new_colname", .use "new_coltype", .use "grouping_key",
      .use "aggregation_function", .use "colnames_needed_by_function" ],
    [ .bind "mean_y_vs_x", .bind "np",
      .use "halos", .bind "hostmask",
      .use "halos", .use "hostmask", .bind "hosts",
      .use "np", .bind "bins",
      .use "mean_y_vs_x", .use "hosts", .use "bins", .bind "result",
      .use "result", .bind "host_mass", .bind "mean_richness",
      .bind "richness_variance" ],
    [ .bind "plt" ],
    [ .use "plt", .use "host_mass", .use "mean_richness",
      .use "richness_variance" ],
    [] ]

/- ### Cell transcription: Example 3 HOD-model notebook -/

/-- Code cells of the "Example 3" notebook (second document concatenated in
`halo_catalog_analysis_tutorial1.ipynb`), in order:
1. `class Size(object)` — the class statement references the builtin
   `object`, and the body of `Size.__init__` references the global `np`
   (`np.dtype(...)`), which no cell of this notebook ever imports;
2. build `cen_size`, `sat_size`; import the two HOD factories; build
   `zheng_model` and `new_model`;
3. import `CachedHaloCatalog`; build `halocat`;
   `new_model.populate_mock(halocat)`;
4.-5. two `new_model.mock.populate()` calls (one under %timeit);
6. `print(new_model.mock.galaxy_table.keys())`;
7. `print(new_model.mock.galaxy_table['galsize'][-5:])`;
8. empty trailing cell. -/
def example3NotebookCells : List PyCell :=
  [ [ .use "object", .use "np", .bind "Size" ],
    [ .use "Size", .bind "cen_size", .use "Size", .bind "sat_size",
      .bind "PrebuiltHodModelFactory", .bind "HodModelFactory",
      .use "PrebuiltHodModelFactory", .bind "zheng_model",
      .use "HodModelFactory", .use "zheng_model",
      .use "cen_size", .use "sat_size", .bind "new_model" ],
    [ .bind "CachedHaloCatalog", .use "CachedHaloCatalog", .bind "halocat",
      .use "new_model", .use "halocat" ],
    [ .use "new_model" ],
    [ .use "new_model" ],
    [ .use "print", .use "new_model" ],
    [ .use "print", .use "new_model" ],
    [] ]

/- ## The two computations the notebooks define themselves -/

/-- The aggregation function of the halo-catalog notebook (cell 3 of the
code cells):
```
def count_subhalos(x):
    return len(x)-1
```
`x` is the column of values of the group members that
`add_new_table_column` hands to the aggregation function. -/
def count_subhalos (x : List Int) : Int := (x.length : Int) - 1

/-- The Python builtin `len`, the only call `count_subhalos` makes into
code not defined by the repository. -/
def pyLen (x : List Int) : Int := x.length

/-- The new-column name bound in the same cell:
`new_colname, new_coltype = 'num_subhalos', 'i4'`. -/
def new_colname : String := "num_subhalos"

/-- The new-column dtype bound in the same cell. -/
def new_coltype : String := "i4"

/-- A row of a halo/galaxy table, with the two columns the `Size` component
reads or writes (`halo_spin`, `galsize`) and representative further columns
(`halo_mvir`, `halo_id`) standing for the rest of the table. Float columns
are modelled as rationals. -/
structure HaloRow where
  halo_id : Int
  halo_spin : Rat
  halo_mvir : Rat
  galsize : Rat
  deriving DecidableEq, Repr, Inhabited

/-- The `Size` component class of the Example 3 notebook:
```
class Size(object):
    def __init__(self, gal_type):
        self.gal_type = gal_type
        ...
```
Only `gal_type` varies between instances; the other three attributes set by
`__init__` are the same for every instance and are embedded as the constant
functions below. -/
structure Size where
  gal_type : String
  deriving DecidableEq, Repr

/-- `self._mock_generation_calling_sequence = ['assign_size']`. -/
def Size.mock_generation_calling_sequence : List String := ["assign_size"]

/-- `self._galprop_dtypes_to_allocate = np.dtype([('galsize', 'f4')])`. -/
def Size.galprop_dtypes_to_allocate : List (String × String) :=
  [("galsize", "f4")]

/-- `self.list_of_haloprops_needed = ['halo_spin']`. -/
def Size.list_of_haloprops_needed : List String := ["halo_spin"]

/-- The `assign_size` method of `Size`:
```
def assign_size(self, **kwargs):
    table = kwargs['table']
    table['galsize'][:] = table['halo_spin']/5.
```
The in-place column assignment is embedded as returning the updated table:
every row's `galsize` is overwritten with that row's `halo_spin / 5` and no
other column of any row is touched. -/
def Size.assign_size (_self : Size) (table : List HaloRow) : List HaloRow :=
  table.map (fun r => { r with galsize := r.halo_spin / 5 })

/- ## Document inventory and imports -/

/-- A documentation page of the repository: a notebook (given by its code
cells' scope events) or an rst index page (given by its toctree entries). -/
inductive DocPage where
  | notebook : List PyCell → DocPage
  | rstIndex : List String → DocPage
  deriving DecidableEq

/-- The toctree of the single rst index page
(`halo_catalog_analysis_tutorial` index, concatenated in the
subhalo-modeling file): one entry. -/
def halocatTutorialIndexToctree : List String :=
  ["basic_examples/halo_catalog_analysis_tutorial1"]

/-- Every documentation page contained in the repository's two files, in
file order: the subhalo-modeling notebook and the rst index page (first
file), then the halo-catalog-analysis notebook and the Example 3 notebook
(second file). -/
def repoDocPages : List DocPage :=
  [ .notebook subhaloNotebookCells,
    .rstIndex halocatTutorialIndexToctree,
    .notebook halocatNotebookCells,
    .notebook example3NotebookCells ]

/-- Whether a documentation page is an index page. -/
def DocPage.isIndex : DocPage → Bool
  | .rstIndex _ => true
  | .notebook _ => false

/-- The toctree entries of a page (empty for notebooks). -/
def DocPage.toctreeEntries : DocPage → List String
  | .rstIndex es => es
  | .notebook _ => []

/-- The modules imported by the subhalo-modeling notebook's code cells. -/
def subhaloNotebookImports : List String := ["halotools.empirical_models"]

/-- The modules imported by the halo-catalog-analysis notebook's code
cells. -/
def halocatNotebookImports : List String :=
  ["halotools.sim_manager", "halotools.utils",
   "halotools.mock_observables", "numpy", "seaborn"]

/-- The modules imported by the Example 3 notebook's code cells. -/
def example3NotebookImports : List String :=
  ["halotools.empirical_models", "halotools.sim_manager"]

/-- All modules imported anywhere in the repository's notebooks. -/
def allNotebookImports : List String :=
  subhaloNotebookImports ++ halocatNotebookImports ++ example3NotebookImports

/-- Python's standard concurrency, scheduling and shared-resource modules. -/
def concurrencyModules : List String :=
  ["threading", "_thread", "multiprocessing", "asyncio", "concurrent",
   "concurrent.futures", "queue", "sched", "subprocess", "signal", "mmap"]

/- ## Spec-modelled external-library machinery

The factories, component models and `populate_mock` live in the external
library, whose source is not part of this repository; only the notebooks'
calls, recorded outputs and the recorded error message are. The definitions
below are modelled from the spec and from those recorded observations. -/

/-- Modelled from the spec: a component model of the external library, as
far as the notebooks exercise it — the names of the galaxy-property columns
it allocates (its `_galprop_dtypes_to_allocate` mechanism) and its
redshift. -/
structure ComponentModel where
  galprop_names : List String
  redshift : Rat
  deriving DecidableEq, Repr

/-- Modelled from the spec: the external library's `Behroozi10SmHm`
component. Per the subhalo-modeling notebook, the name `stellar_mass` "was
set in the source code for the `Behroozi10SmHm` class via the
`_galprop_dtypes_to_allocate` mechanism". -/
def Behroozi10SmHm (redshift : Rat) : ComponentModel :=
  { galprop_names := ["stellar_mass"], redshift := redshift }

/-- The halo-catalog columns carried into the galaxy table, as visible in
the subhalo-modeling notebook's printed `galaxy_table` (elided columns of
the printout are omitted). -/
def subhaloCatalogColumns : List String :=
  ["halo_upid", "halo_mpeak", "halo_x", "halo_y", "vy", "vz", "galid"]

/-- Modelled from the spec: a mock — the synthetic galaxy catalog the
external library generates from a halo catalog and a model. It records the
simulation it was generated from and its `galaxy_table`, represented by the
table's column names. -/
structure Mock where
  simname : String
  galaxy_table_columns : List String
  deriving DecidableEq, Repr

/-- Modelled from the spec: a composite model built by
`SubhaloModelFactory` — the keyword-to-component dictionary passed to the
factory, and the mock bound to the model once `populate_mock` has run. -/
structure SubhaloModel where
  model_dictionary : List (String × ComponentModel)
  mock : Option Mock
  deriving DecidableEq, Repr

/-- Modelled from the spec: `SubhaloModelFactory(kw1 = comp1, ...)` builds a
composite model from the passed components; no mock is bound yet. -/
def SubhaloModelFactory (kwargs : List (String × ComponentModel)) : SubhaloModel :=
  { model_dictionary := kwargs, mock := none }

/-- Modelled from the spec: generating the synthetic galaxy table from a
halo catalog and the model's components — the halo columns of the catalog
followed by the galaxy-property columns each component allocates (the
factory keywords under which the components were passed play no role; the
two catalogs the notebooks populate carry the same visible halo columns,
so neither does the simname). -/
def generate_galaxy_table_columns
    (_simname : String) (components : List (String × ComponentModel)) : List String :=
  subhaloCatalogColumns ++ (components.map (fun kc => kc.2.galprop_names)).flatten

/-- The error message recorded in the subhalo-modeling notebook when
`populate_mock` is called with a simname different from the one already
bound to the model's mock. -/
def inconsistency_message (bound passed : String) : String :=
  "Inconsistency between the simname already bound to the existing mock = ``"
    ++ bound ++ "`` and the simname passed as a keyword argument = ``"
    ++ passed ++ "``.\nYou should instantiate a new model object if you wish to switch halo catalogs."

/-- Modelled from the spec: `model.populate_mock(simname = s)`. The first
call loads the catalog named `s` and binds a mock generated from it to the
model; a later call with the same simname regenerates the mock; a call with
a different simname raises `HalotoolsError` with the recorded inconsistency
message and changes nothing. The result is the model state after the call
together with the error raised, if any. -/
def populate_mock (m : SubhaloModel) (simname : String) :
    SubhaloModel × Option String :=
  match m.mock with
  | none =>
      ({ m with
          mock := some { simname := simname,
                         galaxy_table_columns :=
                           generate_galaxy_table_columns simname m.model_dictionary } },
        none)
  | some mk =>
      if mk.simname = simname then
        ({ m with
            mock := some { simname := simname,
                           galaxy_table_columns :=
                             generate_galaxy_table_columns simname m.model_dictionary } },
          none)
      else
        (m, some (inconsistency_message mk.simname simname))

/-- Modelled from the spec: `halotools.utils.add_new_table_column` with a
single needed column equal to the grouping key — the rows of the table are
grouped by their grouping-key value, the aggregation function is applied to
each group's column of grouping-key values, and the result is broadcast to
every member of the group. The table is represented by its column of
grouping-key values (`halo_hostid`); the result is the new column, aligned
with the rows. -/
def add_new_table_column (hostids : List Int) (aggregation : List Int → Int) :
    List Int :=
  hostids.map (fun h => aggregation (hostids.filter (fun x => x == h)))

/-- The `galaxy_table` column names printed by the Example 3 notebook
(`print(new_model.mock.galaxy_table.keys())`), verbatim from the recorded
output. -/
def observedGalaxyTableKeys : List String :=
  ["halo_upid", "halo_num_centrals", "halo_num_satellites", "halo_spin",
   "halo_y", "halo_x", "halo_z", "halo_vx", "halo_vy", "halo_vz",
   "conc_NFWmodel", "halo_rvir", "halo_mvir", "halo_id", "gal_type",
   "galsize", "vx", "host_centric_distance", "vy", "y", "x", "vz", "z"]

/- ## Helper lemmas -/

/-- `getD` through a `map`, at an index inside the list. -/
theorem getD_map_of_lt {α β : Type} (f : α → β) (l : List α) (i : Nat)
    (hi : i < l.length) (d : α) (d2 : β) :
    (l.map f).getD i d2 = f (l.getD i d) := by
  induction l generalizing i with
  | nil => simp at hi
  | cons a l ih =>
      cases i with
      | zero => simp [List.getD]
      | succ n =>
          simp only [List.map_cons, List.getD_cons_succ]
          exact ih n (by simpa using hi)

/- ## Claims -/

/-- C4: the claim says every name referenced in a code cell of every
notebook is defined or imported earlier in that notebook. The Example 3
notebook violates it: `np` is referenced (in the body of `Size.__init__`,
executed when `Size('centrals')` is first instantiated) but no cell of that
notebook imports numpy, so executing the cells in order fails with an
undefined name; `np` is the only such name, and the other two notebooks are
self-contained. -/
theorem example3_notebook_references_undefined_np :
    notebookScopeErrors example3NotebookCells = ["np"] ∧
    selfContained subhaloNotebookCells ∧
    selfContained halocatNotebookCells := by
  refine ⟨by decide, by decide, by decide⟩

/-- C5: the repository contains exactly one documentation index page, and
the toctree entries over all its pages number exactly one (the single
tutorial link `basic_examples/halo_catalog_analysis_tutorial1`). -/
theorem repo_has_one_index_page_with_one_toctree_entry :
    (repoDocPages.filter DocPage.isIndex).length = 1 ∧
    ((repoDocPages.map DocPage.toctreeEntries).flatten).length = 1 := by
  exact ⟨rfl, rfl⟩

/-- C7: no module imported by any notebook of the repository is one of
Python's concurrency, scheduling or shared-resource modules; the notebooks'
execution model embedded here (`notebookScopeErrors`) is a sequential fold
over the cells in order. -/
theorem notebooks_import_no_concurrency_modules :
    ∀ m ∈ allNotebookImports, m ∉ concurrencyModules := by
  decide

/-- Witness for C7 at the concrete import `numpy`. -/
theorem notebooks_import_no_concurrency_modules_witness :
    "numpy" ∈ allNotebookImports ∧ "numpy" ∉ concurrencyModules :=
  ⟨by decide, notebooks_import_no_concurrency_modules "numpy" (by decide)⟩

/-- C2 counterexample: the claim says no function defined in the repository
computes anything beyond delegating to an external call. The notebook-defined
aggregation function `count_subhalos` refutes it: on the concrete input
`[3058439856]` (a `halo_hostid` value from the recorded output) it returns
`0`, not the result `1` of the external `len` call it wraps — the
subtraction is a computation of this repository's own. -/
theorem count_subhalos_not_a_direct_delegation :
    count_subhalos [3058439856] ≠ pyLen [3058439856] := by
  decide

/-- C2 amended: every operation of the notebooks is a direct external-library
call except the repository-defined `count_subhalos` (and `Size.assign_size`,
settled under C9): `count_subhalos` returns exactly one less than the
external `len` of its input, and on no input does it merely delegate. -/
theorem count_subhalos_adjusts_the_external_len :
    (∀ x : List Int, count_subhalos x = pyLen x - 1) ∧
    (∀ x : List Int, count_subhalos x ≠ pyLen x) := by
  constructor
  · intro x; rfl
  · intro x h
    unfold count_subhalos pyLen at h
    omega

/-- C3 counterexample: the claim says no column or dtype used at the public
interface originates in this repository. The column `galsize` refutes it:
it appears among the mock `galaxy_table` keys printed by the Example 3
notebook, and it originates in the repository's own `Size` class via its
`_galprop_dtypes_to_allocate` attribute. -/
theorem galsize_public_column_originates_in_repository :
    "galsize" ∈ observedGalaxyTableKeys ∧
    "galsize" ∈ Size.galprop_dtypes_to_allocate.map Prod.fst := by
  refine ⟨by decide, by decide⟩

/-- C3 amended: the repository does define tabular structure of its own —
the `Size` class allocates the dtype `('galsize', 'f4')`, and `galsize` is
the one column among the mock galaxy table's public columns that originates
in this repository (the `num_subhalos`/`i4` column it adds to the halo
table is likewise repository-named); all other tabular structures are owned
by the external library. -/
theorem galsize_is_only_repo_defined_galaxy_table_column :
    ("galsize", "f4") ∈ Size.galprop_dtypes_to_allocate ∧
    observedGalaxyTableKeys.filter
        (fun c => (Size.galprop_dtypes_to_allocate.map Prod.fst).contains c)
      = ["galsize"] := by
  refine ⟨by decide, by decide⟩

/-- C9: `Size.assign_size` sets, for every row of the table, the `galsize`
column to that row's `halo_spin` divided by 5, and leaves every other
column of every row unchanged (and the set of rows itself unchanged). -/
theorem assign_size_sets_galsize_preserves_rest
    (s : Size) (t : List HaloRow) (i : Nat) (hi : i < t.length) :
    ((s.assign_size t).getD i default).galsize
        = (t.getD i default).halo_spin / 5 ∧
    ((s.assign_size t).getD i default).halo_spin
        = (t.getD i default).halo_spin ∧
    ((s.assign_size t).getD i default).halo_mvir
        = (t.getD i default).halo_mvir ∧
    ((s.assign_size t).getD i default).halo_id
        = (t.getD i default).halo_id ∧
    (s.assign_size t).length = t.length := by
  unfold Size.assign_size
  rw [getD_map_of_lt _ t i hi default default]
  exact ⟨rfl, rfl, rfl, rfl, by simp⟩

/-- Witness for C9 at a concrete one-row table with `halo_spin = 1/2`. -/
theorem assign_size_sets_galsize_preserves_rest_witness :
    (((Size.mk "centrals").assign_size [HaloRow.mk 7 (1/2) 10 0]).getD 0 default).galsize
        = (([HaloRow.mk 7 (1/2) 10 0].getD 0 default)).halo_spin / 5 ∧
    (((Size.mk "centrals").assign_size [HaloRow.mk 7 (1/2) 10 0]).getD 0 default).halo_spin
        = (([HaloRow.mk 7 (1/2) 10 0].getD 0 default)).halo_spin ∧
    (((Size.mk "centrals").assign_size [HaloRow.mk 7 (1/2) 10 0]).getD 0 default).halo_mvir
        = (([HaloRow.mk 7 (1/2) 10 0].getD 0 default)).halo_mvir ∧
    (((Size.mk "centrals").assign_size [HaloRow.mk 7 (1/2) 10 0]).getD 0 default).halo_id
        = (([HaloRow.mk 7 (1/2) 10 0].getD 0 default)).halo_id ∧
    ((Size.mk "centrals").assign_size [HaloRow.mk 7 (1/2) 10 0]).length
        = [HaloRow.mk 7 (1/2) 10 0].length :=
  assign_size_sets_galsize_preserves_rest
    (Size.mk "centrals") [HaloRow.mk 7 (1/2) 10 0] 0 (by decide)

/-- C8: `add_new_table_column` with aggregation function `count_subhalos`
and grouping key `halo_hostid` assigns to every member of a group of rows
sharing the same `halo_hostid` the value (size of the group minus 1); in
particular a host halo with no subhalos — a group of size 1 — receives 0. -/
theorem add_new_table_column_count_subhalos_group_size
    (hostids : List Int) (i : Nat) (hi : i < hostids.length) :
    (add_new_table_column hostids count_subhalos).getD i 0
        = (hostids.countP (fun x => x == hostids.getD i 0) : Int) - 1 ∧
    (hostids.countP (fun x => x == hostids.getD i 0) = 1 →
      (add_new_table_column hostids count_subhalos).getD i 0 = 0) := by
  unfold add_new_table_column
  rw [getD_map_of_lt _ hostids i hi 0 0]
  unfold count_subhalos
  rw [List.countP_eq_length_filter]
  exact ⟨rfl, fun h => by rw [h]; simp⟩

/-- Witness for C8 at the concrete hostid column `[1, 1, 2]`: the lone host
`2` (a group of size 1) receives `num_subhalos = 0`. -/
theorem add_new_table_column_count_subhalos_group_size_witness :
    ((add_new_table_column [1, 1, 2] count_subhalos).getD 2 0
        = ((([1, 1, 2] : List Int).countP
              (fun x => x == ([1, 1, 2] : List Int).getD 2 0)) : Int) - 1 ∧
      (([1, 1, 2] : List Int).countP
          (fun x => x == ([1, 1, 2] : List Int).getD 2 0) = 1 →
        (add_new_table_column [1, 1, 2] count_subhalos).getD 2 0 = 0)) :=
  add_new_table_column_count_subhalos_group_size [1, 1, 2] 2 (by decide)

/-- C1: populating a model's mock from simulation `s1` and then calling
`populate_mock` with a different simname `s2` raises the `HalotoolsError`
reporting the inconsistency between the bound simname and the passed one,
leaves the model and its mock unchanged, and a freshly built model with the
same components populates `s2` successfully, binding a mock generated from
`s2`. -/
theorem populate_mock_simname_switch_raises_and_preserves
    (comps : List (String × ComponentModel)) (s1 s2 : String) (hne : s1 ≠ s2) :
    (populate_mock ((populate_mock (SubhaloModelFactory comps) s1).1) s2).2
        = some (inconsistency_message s1 s2) ∧
    (populate_mock ((populate_mock (SubhaloModelFactory comps) s1).1) s2).1
        = (populate_mock (SubhaloModelFactory comps) s1).1 ∧
    (populate_mock (SubhaloModelFactory comps) s2).2 = none ∧
    ((populate_mock (SubhaloModelFactory comps) s2).1).mock
        = some { simname := s2,
                 galaxy_table_columns :=
                   generate_galaxy_table_columns s2 comps } := by
  unfold populate_mock SubhaloModelFactory
  simp [hne]

/-- Witness for C1 with the notebook's components and simnames: populated
from `fake`, switched to `bolshoi`. -/
theorem populate_mock_simname_switch_witness :
    ((populate_mock
        ((populate_mock
            (SubhaloModelFactory [("stellar_mass", Behroozi10SmHm 0)]) "fake").1)
        "bolshoi").2
        = some (inconsistency_message "fake" "bolshoi") ∧
      (populate_mock
        ((populate_mock
            (SubhaloModelFactory [("stellar_mass", Behroozi10SmHm 0)]) "fake").1)
        "bolshoi").1
        = (populate_mock
            (SubhaloModelFactory [("stellar_mass", Behroozi10SmHm 0)]) "fake").1 ∧
      (populate_mock
        (SubhaloModelFactory [("stellar_mass", Behroozi10SmHm 0)]) "bolshoi").2
        = none ∧
      ((populate_mock
          (SubhaloModelFactory [("stellar_mass", Behroozi10SmHm 0)]) "bolshoi").1).mock
        = some { simname := "bolshoi",
                 galaxy_table_columns :=
                   generate_galaxy_table_columns "bolshoi"
                     [("stellar_mass", Behroozi10SmHm 0)] }) :=
  populate_mock_simname_switch_raises_and_preserves
    [("stellar_mass", Behroozi10SmHm 0)] "fake" "bolshoi" (by decide)

/-- C6: whenever `populate_mock` succeeds (raises no error), the resulting
model's `mock` attribute holds a mock whose `galaxy_table` is the synthetic
galaxy catalog generated from the given halo catalog and the model's
components. -/
theorem populate_mock_success_binds_generated_galaxy_table
    (m : SubhaloModel) (s : String) (h : (populate_mock m s).2 = none) :
    ((populate_mock m s).1).mock
        = some { simname := s,
                 galaxy_table_columns :=
                   generate_galaxy_table_columns s m.model_dictionary } := by
  unfold populate_mock at h ⊢
  cases hm : m.mock with
  | none => simp [hm]
  | some mk =>
      by_cases hs : mk.simname = s
      · simp [hm, hs]
      · simp [hm, hs] at h

/-- Witness for C6: a fresh model with the notebook's component populating
`fake`. -/
theorem populate_mock_success_binds_generated_galaxy_table_witness :
    ((populate_mock
        (SubhaloModelFactory [("stellar_mass", Behroozi10SmHm 0)]) "fake").1).mock
        = some { simname := "fake",
                 galaxy_table_columns :=
                   generate_galaxy_table_columns "fake"
                     (SubhaloModelFactory
                       [("stellar_mass", Behroozi10SmHm 0)]).model_dictionary } :=
  populate_mock_success_binds_generated_galaxy_table
    (SubhaloModelFactory [("stellar_mass", Behroozi10SmHm 0)]) "fake" (by decide)

/-- C10: two factory builds passing the same component instance under
different keyword names yield mocks whose galaxy tables have identical
column names; with the `Behroozi10SmHm` component, the column is named
`stellar_mass` whatever the keyword — the name comes from the component's
`_galprop_dtypes_to_allocate`, not from the factory keyword. -/
theorem factory_keyword_does_not_affect_galaxy_table_columns
    (kw1 kw2 : String) (c : ComponentModel) (s : String) :
    (((populate_mock (SubhaloModelFactory [(kw1, c)]) s).1).mock.map
        (fun mk => mk.galaxy_table_columns))
      = (((populate_mock (SubhaloModelFactory [(kw2, c)]) s).1).mock.map
        (fun mk => mk.galaxy_table_columns)) ∧
    (∀ r : Rat,
      "stellar_mass" ∈ generate_galaxy_table_columns s [(kw1, Behroozi10SmHm r)]) := by
  constructor
  · rfl
  · intro r
    simp [generate_galaxy_table_columns, Behroozi10SmHm]
